import Mathlib

/-!
Verification of the shamba1 repository's data pipeline and serving layer.

Real-valued quantities from the Python source are modelled as rationals
(`ℚ`); nullable values as `Option ℚ`.  Each definition is a direct
translation of the function of the same name in the source tree.
-/

namespace Shamba

/-- `calculate_water_stress_index` from
`scripts/data_processing/collect_openmeteo_data.py`.
If rainfall ≤ 0 the fixed arid-baseline 0.86 is returned; otherwise the
base stress 0.73 plus the temperature, evapotranspiration, rainfall and
humidity factors, clamped to [0.73, 0.86]. -/
def calculate_water_stress_index (temp evap rainfall humidity : ℚ) : ℚ :=
  if rainfall ≤ 0 then 86/100
  else
    let temp_factor : ℚ := if temp > 25 then min (3/10) ((temp - 25) * (6/100)) else 0
    let evap_factor : ℚ := if evap > 5 then min (3/10) ((evap - 5) * (6/100)) else 0
    let rainfall_factor : ℚ := if rainfall < 50 then (50 - rainfall) * (8/1000) else 0
    let humidity_factor : ℚ := if humidity < 60 then (60 - humidity) * (2/1000) else 0
    let base_stress : ℚ := 73/100
    let total_stress := base_stress + temp_factor + evap_factor + rainfall_factor + humidity_factor
    max (73/100) (min (86/100) total_stress)

/-- The spec's reading of the stress formula, with each of the four
contributions independently capped at the maximum documented in the
source comments (0.3, 0.3, 0.4 and 0.1 respectively) before summation. -/
def water_stress_index_all_capped (temp evap rainfall humidity : ℚ) : ℚ :=
  if rainfall ≤ 0 then 86/100
  else
    let temp_factor : ℚ := if temp > 25 then min (3/10) ((temp - 25) * (6/100)) else 0
    let evap_factor : ℚ := if evap > 5 then min (3/10) ((evap - 5) * (6/100)) else 0
    let rainfall_factor : ℚ := if rainfall < 50 then min (4/10) ((50 - rainfall) * (8/1000)) else 0
    let humidity_factor : ℚ := if humidity < 60 then min (1/10) ((60 - humidity) * (2/1000)) else 0
    let base_stress : ℚ := 73/100
    let total_stress := base_stress + temp_factor + evap_factor + rainfall_factor + humidity_factor
    max (73/100) (min (86/100) total_stress)

/-! ### Serving layer: `MaizeResilienceModel.predict_resilience_score` -/

/-- Python's `round` at integer precision: round half to even. -/
def roundHalfEven (q : ℚ) : ℤ :=
  if q - ⌊q⌋ < 1/2 then ⌊q⌋
  else if 1/2 < q - ⌊q⌋ then ⌊q⌋ + 1
  else if 2 ∣ ⌊q⌋ then ⌊q⌋ else ⌊q⌋ + 1

/-- Python's `round(q, d)`: round to `d` decimal places, half to even. -/
def roundTo (d : ℕ) (q : ℚ) : ℚ :=
  (roundHalfEven (q * 10 ^ d) : ℚ) / 10 ^ d

/-- `BENCHMARK_YIELD` from `config/settings.py`: 2.5 tonnes/ha. -/
def BENCHMARK_YIELD : ℚ := 5/2

/-- The fields of the dict returned by `predict_resilience_score` that
the resilience-score contract concerns. -/
structure PredictionResult where
  resilience_score : ℚ
  predicted_yield : ℚ
  benchmark_yield : ℚ
deriving DecidableEq, Repr

/-- Tail of `MaizeResilienceModel.predict_resilience_score` in
`src/models/maize_resilience_model.py`: the fitted regression ensemble
is opaque (out-of-scope ML internals), so its output `predicted_yield`
is the argument here; the function then computes the raw score, clamps
it to [0, 100] and rounds the returned fields. -/
def predict_resilience_score (predicted_yield : ℚ) : PredictionResult :=
  let raw_score := predicted_yield / BENCHMARK_YIELD * 100
  let resilience_score := max 0 (min 100 raw_score)
  { resilience_score := roundTo 1 resilience_score
    predicted_yield := roundTo 2 predicted_yield
    benchmark_yield := BENCHMARK_YIELD }

lemma roundHalfEven_nonneg {q : ℚ} (h : 0 ≤ q) : 0 ≤ roundHalfEven q := by
  have hf : (0:ℤ) ≤ ⌊q⌋ := Int.floor_nonneg.mpr h
  unfold roundHalfEven
  split
  · exact hf
  · split
    · omega
    · split <;> omega

lemma roundHalfEven_le_ceil (q : ℚ) : roundHalfEven q ≤ ⌈q⌉ := by
  unfold roundHalfEven
  split
  · exact Int.floor_le_ceil q
  · have hlt : (⌊q⌋ : ℚ) < q := by
      rename_i hnot
      have := Int.floor_le q
      by_contra hc
      push_neg at hc
      have : (⌊q⌋ : ℚ) = q := le_antisymm this hc
      rw [this] at hnot
      simp at hnot
    have h1 : ⌊q⌋ < ⌈q⌉ := Int.lt_ceil.mpr hlt
    split
    · omega
    · split <;> omega

/-! ### API endpoints (`src/api/fastapi_app.py`) -/

/-- Python exceptions relevant to the prediction endpoints.  FastAPI's
`HTTPException` is a subclass of `Exception`, so a bare
`except Exception` clause catches it too. -/
inductive PyExc where
  | httpException (status : ℕ) (detail : String)
  | other (msg : String)
deriving DecidableEq, Repr

/-- An HTTP error response produced from a raised `HTTPException`. -/
structure ErrorResponse where
  status : ℕ
  detail : String
deriving DecidableEq, Repr

/-- `predict_resilience` (`POST /api/predict`): the whole handler body
runs inside `try`, and its only `except` clause is
`except Exception: raise HTTPException(500, ...)`.  The body raises
`HTTPException(503, ...)` when the model is absent or untrained,
otherwise runs the model (whose outcome is `run_model`). -/
def predict_resilience (model_loaded is_trained : Bool)
    (run_model : Except PyExc ℚ) : Except ErrorResponse ℚ :=
  let body : Except PyExc ℚ :=
    if !model_loaded || !is_trained then
      Except.error (PyExc.httpException 503 "Model not trained. Please train the model first.")
    else
      run_model
  match body with
  | Except.ok score => Except.ok score
  | Except.error _ =>
      Except.error { status := 500, detail := "Internal server error during prediction" }

/-- `batch_predict` (`POST /api/predict/batch`): same `try`/`except`
shape; individual predictions each have their own inner
`try`/`except` that records an error result instead of failing the
whole batch. -/
def batch_predict (model_loaded is_trained : Bool)
    (run_model : List (Except PyExc ℚ)) : Except ErrorResponse (List (Option ℚ)) :=
  let body : Except PyExc (List (Option ℚ)) :=
    if !model_loaded || !is_trained then
      Except.error (PyExc.httpException 503 "Model not trained. Please train the model first.")
    else
      Except.ok (run_model.map (fun r =>
        match r with
        | Except.ok s => some s
        | Except.error _ => none))
  match body with
  | Except.ok rs => Except.ok rs
  | Except.error _ =>
      Except.error { status := 500, detail := "Internal server error during batch prediction" }

/-! ### Hourly record processing (`collect_openmeteo_data.py`) -/

/-- One hourly slice of the Open-Meteo response; a `none` field models a
missing (null) value in the upstream arrays. -/
structure HourlyInput where
  temp : Option ℚ
  hum : Option ℚ
  pres : Option ℚ
  evap : Option ℚ
  precip : Option ℚ
deriving DecidableEq, Repr

/-- The dict returned by `calculate_irrigation_needs`. -/
structure IrrigationData where
  irrigation_needed : String
  irrigation_volume_liters_ha : ℚ
  crop_yield_impact_percent : ℚ
deriving DecidableEq, Repr

set_option linter.unusedVariables false in
/-- `calculate_irrigation_needs` from `collect_openmeteo_data.py`
(the `temp` argument is accepted but unused by the source too). -/
def calculate_irrigation_needs (rainfall water_stress temp : ℚ) : IrrigationData :=
  if rainfall < 10 ∧ water_stress > 75/100 then
    if water_stress > 80/100 then
      { irrigation_needed := "Yes", irrigation_volume_liters_ha := 4450,
        crop_yield_impact_percent := 20 }
    else if water_stress > 78/100 then
      { irrigation_needed := "Yes", irrigation_volume_liters_ha := 4300,
        crop_yield_impact_percent := 15 }
    else
      { irrigation_needed := "Yes", irrigation_volume_liters_ha := 3800,
        crop_yield_impact_percent := 10 }
  else
    { irrigation_needed := "No", irrigation_volume_liters_ha := 0,
      crop_yield_impact_percent := 0 }

/-- `calculate_heat_stress_days` (default threshold 30 at call site). -/
def calculate_heat_stress_days (temp threshold : ℚ) : ℤ :=
  if temp > threshold then 1 else 0

/-- The per-record fields emitted by `process_weather_response`
(the county/date plumbing columns are omitted). -/
structure WeatherRecord where
  temperature_c : Option ℚ
  humidity_percent : Option ℚ
  pressure_hpa : Option ℚ
  evapotranspiration_mm : Option ℚ
  precipitation_mm : Option ℚ
  water_stress_index : Option ℚ
  irrigation_needed : String
  irrigation_volume_liters_ha : ℚ
  crop_yield_impact_percent : ℚ
  heat_stress_days : ℤ
deriving DecidableEq, Repr

/-- The loop body of `process_weather_response` for one hourly slice:
the stress index is computed only when temperature, evapotranspiration,
precipitation and humidity are all present; the irrigation dict only
when precipitation, stress and temperature are present; the emitted
record falls back to `dict.get` defaults `'Unknown'` / `0` otherwise. -/
def process_hourly_record (inp : HourlyInput) : WeatherRecord :=
  let water_stress : Option ℚ :=
    match inp.temp, inp.evap, inp.precip, inp.hum with
    | some t, some e, some p, some h => some (calculate_water_stress_index t e p h)
    | _, _, _, _ => none
  let irrigation_data : Option IrrigationData :=
    match inp.precip, water_stress, inp.temp with
    | some p, some w, some t => some (calculate_irrigation_needs p w t)
    | _, _, _ => none
  let heat_stress_days : ℤ :=
    match inp.precip, water_stress, inp.temp with
    | some _, some _, some t => calculate_heat_stress_days t 30
    | _, _, _ => 0
  { temperature_c := inp.temp
    humidity_percent := inp.hum
    pressure_hpa := inp.pres
    evapotranspiration_mm := inp.evap
    precipitation_mm := inp.precip
    water_stress_index := water_stress
    irrigation_needed := (irrigation_data.map IrrigationData.irrigation_needed).getD "Unknown"
    irrigation_volume_liters_ha :=
      (irrigation_data.map IrrigationData.irrigation_volume_liters_ha).getD 0
    crop_yield_impact_percent :=
      (irrigation_data.map IrrigationData.crop_yield_impact_percent).getD 0
    heat_stress_days := heat_stress_days }

/-! ### Master-table build (`integrate_all_datasets.py`) -/

/-- A (county, year, month) join key, the key of every join in
`create_master_dataset`. -/
structure JoinKey where
  county : String
  year : ℤ
  month : ℤ
deriving DecidableEq, Repr

/-- Polars `DataFrame.join(..., on=key, how="left")` for tables keyed
by `JoinKey`: every base row appears in the output, paired with each
matching right row, or with `none` when the right table has no match
for its key. -/
def leftJoin {α β : Type} (base : List (JoinKey × α)) (right : List (JoinKey × β)) :
    List (JoinKey × α × Option β) :=
  base.flatMap (fun ka =>
    let ms := right.filter (fun kb => kb.1 = ka.1)
    if ms.isEmpty then [(ka.1, ka.2, none)]
    else ms.map (fun kb => (ka.1, ka.2, some kb.2)))

/-- `create_master_dataset`: the monthly weather aggregate is the base,
left-joined successively with the dashboard, maize-yield, soil and
CHIRPS-rainfall tables on (county, year, month). -/
def create_master_dataset {W D M S R : Type}
    (weather : List (JoinKey × W)) (dashboard : List (JoinKey × D))
    (maize : List (JoinKey × M)) (soil : List (JoinKey × S))
    (rainfall : List (JoinKey × R)) :
    List (JoinKey × (((W × Option D) × Option M) × Option S) × Option R) :=
  leftJoin (leftJoin (leftJoin (leftJoin weather dashboard) maize) soil) rainfall

lemma exists_mem_leftJoin_of_mem_base {α β : Type} {base : List (JoinKey × α)}
    {right : List (JoinKey × β)} {k : JoinKey} {a : α} (h : (k, a) ∈ base) :
    ∃ ob, (k, a, ob) ∈ leftJoin base right := by
  unfold leftJoin
  by_cases hms : (right.filter (fun kb => kb.1 = k)).isEmpty
  · refine ⟨none, List.mem_flatMap.mpr ⟨(k, a), h, ?_⟩⟩
    simp only [hms, if_pos]
    exact List.mem_singleton.mpr rfl
  · have hne : right.filter (fun kb => kb.1 = k) ≠ [] := fun hnil => hms (by simp [hnil])
    obtain ⟨kb, hkb⟩ := List.exists_mem_of_ne_nil _ hne
    refine ⟨some kb.2, List.mem_flatMap.mpr ⟨(k, a), h, ?_⟩⟩
    simp only [hms, if_neg, Bool.false_eq_true, not_false_iff]
    exact List.mem_map.mpr ⟨kb, hkb, rfl⟩

lemma base_mem_of_mem_leftJoin {α β : Type} {base : List (JoinKey × α)}
    {right : List (JoinKey × β)} {row : JoinKey × α × Option β}
    (h : row ∈ leftJoin base right) : (row.1, row.2.1) ∈ base := by
  unfold leftJoin at h
  obtain ⟨ka, hka, hrow⟩ := List.mem_flatMap.mp h
  by_cases hms : (right.filter (fun kb => kb.1 = ka.1)).isEmpty
  · simp only [hms, if_pos, List.mem_singleton] at hrow
    subst hrow
    exact hka
  · simp only [hms, if_neg, Bool.false_eq_true, not_false_iff, List.mem_map] at hrow
    obtain ⟨kb, _, hrow⟩ := hrow
    subst hrow
    exact hka

lemma leftJoin_none_of_no_match {α β : Type} {base : List (JoinKey × α)}
    {right : List (JoinKey × β)} {row : JoinKey × α × Option β}
    (h : row ∈ leftJoin base right) (hk : ∀ kb ∈ right, kb.1 ≠ row.1) :
    row.2.2 = none := by
  unfold leftJoin at h
  obtain ⟨ka, hka, hrow⟩ := List.mem_flatMap.mp h
  by_cases hms : (right.filter (fun kb => kb.1 = ka.1)).isEmpty
  · simp only [hms, if_pos, List.mem_singleton] at hrow
    subst hrow
    rfl
  · simp only [hms, if_neg, Bool.false_eq_true, not_false_iff, List.mem_map] at hrow
    obtain ⟨kb, hkb, hrow⟩ := hrow
    have hkb' := List.mem_filter.mp hkb
    exfalso
    apply hk kb hkb'.1
    have : kb.1 = ka.1 := by simpa using hkb'.2
    rw [this, ← hrow]

/-! ### Training-data cleaning (`scripts/enhance_training_data.py`) -/

/-- Insertion into a sorted list (helper for the quantile embedding). -/
def insertSorted (x : ℚ) : List ℚ → List ℚ
  | [] => [x]
  | y :: ys => if x ≤ y then x :: y :: ys else y :: insertSorted x ys

/-- Insertion sort of the yield column. -/
def sortQ : List ℚ → List ℚ
  | [] => []
  | x :: xs => insertSorted x (sortQ xs)

/-- pandas `Series.quantile(q)` with the default linear interpolation:
position `(n − 1)·q` in the sorted data, interpolating linearly between
the two neighbouring order statistics. -/
def quantile (xs : List ℚ) (q : ℚ) : ℚ :=
  let s := sortQ xs
  if s.length = 0 then 0
  else
    let pos := ((s.length : ℚ) - 1) * q
    let lo := ⌊pos⌋.toNat
    let frac := pos - ⌊pos⌋
    let a := s.getD lo 0
    let b := s.getD (lo + 1) a
    a + frac * (b - a)

/-- `lower_bound = Q1 − 1.5·IQR` from `create_enhanced_dataset`. -/
def iqr_lower_bound (ys : List ℚ) : ℚ :=
  quantile ys (1/4) - 3/2 * (quantile ys (3/4) - quantile ys (1/4))

/-- `upper_bound = Q3 + 1.5·IQR` from `create_enhanced_dataset`. -/
def iqr_upper_bound (ys : List ℚ) : ℚ :=
  quantile ys (3/4) + 3/2 * (quantile ys (3/4) - quantile ys (1/4))

/-- The yield-cleaning step of `create_enhanced_dataset`: keep exactly
the rows whose yield passes the domain band [0.8, 5.0] and the IQR
bounds computed from the yield column itself. -/
def clean_yield_rows (ys : List ℚ) : List ℚ :=
  ys.filter (fun y =>
    decide (4/5 ≤ y) && decide (y ≤ 5) &&
      decide (iqr_lower_bound ys ≤ y) && decide (y ≤ iqr_upper_bound ys))

/-! ### County assignment by bounding box (`integrate_all_datasets.py`,
`aggregate_soil_data_by_county` / `assign_county`) -/

/-- One branch of the `assign_county` if/elif chain: a county name with
its latitude/longitude rectangle. -/
structure CountyBox where
  name : String
  latMin : ℚ
  latMax : ℚ
  lonMin : ℚ
  lonMax : ℚ
deriving DecidableEq, Repr

/-- The county name spelled with an apostrophe in the source. -/
def murangA : String := "Murang" ++ (Char.ofNat 39).toString ++ "a"

/-- The 47 rectangles of `assign_county`, in the exact order of the
if/elif chain of the source. -/
def countyBoxes : List CountyBox :=
  [ ⟨"Mombasa", -4.5, -3.5, 39.0, 40.5⟩,
    ⟨"Kwale", -4.5, -3.5, 38.0, 39.5⟩,
    ⟨"Kilifi", -3.8, -2.8, 39.5, 40.5⟩,
    ⟨"Tana River", -1.8, -0.8, 39.5, 40.5⟩,
    ⟨"Lamu", -2.5, -1.5, 40.5, 41.5⟩,
    ⟨"Taita Taveta", -3.8, -2.8, 38.0, 39.0⟩,
    ⟨"Garissa", -0.8, 0.2, 39.0, 40.5⟩,
    ⟨"Wajir", 1.0, 2.0, 39.5, 40.5⟩,
    ⟨"Mandera", 3.0, 4.0, 41.0, 42.0⟩,
    ⟨"Marsabit", 2.0, 3.0, 37.5, 38.5⟩,
    ⟨"Isiolo", 0.0, 1.0, 37.0, 38.0⟩,
    ⟨"Meru", 0.0, 1.0, 37.5, 38.5⟩,
    ⟨"Tharaka Nithi", -0.5, 0.5, 37.5, 38.5⟩,
    ⟨"Embu", -0.8, 0.2, 37.0, 38.0⟩,
    ⟨"Kitui", -1.8, -0.8, 37.5, 38.5⟩,
    ⟨"Machakos", -2.0, -1.0, 37.0, 38.0⟩,
    ⟨"Makueni", -2.5, -1.5, 37.5, 38.5⟩,
    ⟨"Nyandarua", -0.8, 0.2, 36.0, 37.0⟩,
    ⟨"Nyeri", -0.8, 0.2, 36.5, 37.5⟩,
    ⟨"Kirinyaga", -1.0, 0.0, 37.0, 38.0⟩,
    ⟨murangA, -1.0, 0.0, 37.0, 38.0⟩,
    ⟨"Kiambu", -1.5, -0.5, 36.5, 37.5⟩,
    ⟨"Turkana", 3.0, 4.0, 35.0, 36.0⟩,
    ⟨"West Pokot", 1.0, 2.0, 34.5, 35.5⟩,
    ⟨"Samburu", 1.0, 2.0, 36.5, 37.5⟩,
    ⟨"Trans Nzoia", 1.0, 2.0, 34.5, 35.5⟩,
    ⟨"Uasin Gishu", 0.0, 1.0, 35.0, 36.0⟩,
    ⟨"Elgeyo Marakwet", 0.0, 1.0, 35.0, 36.0⟩,
    ⟨"Nandi", 0.0, 1.0, 34.5, 35.5⟩,
    ⟨"Baringo", 0.0, 1.0, 36.0, 37.0⟩,
    ⟨"Laikipia", 0.0, 1.0, 36.0, 37.0⟩,
    ⟨"Nakuru", -0.8, 0.2, 35.5, 36.5⟩,
    ⟨"Narok", -1.5, -0.5, 35.5, 36.5⟩,
    ⟨"Kajiado", -2.0, -1.0, 36.5, 37.5⟩,
    ⟨"Kericho", -0.8, 0.2, 35.0, 36.0⟩,
    ⟨"Bomet", -1.0, 0.0, 35.0, 36.0⟩,
    ⟨"Kakamega", 0.0, 1.0, 34.0, 35.0⟩,
    ⟨"Vihiga", 0.0, 1.0, 34.0, 35.0⟩,
    ⟨"Bungoma", 0.0, 1.0, 34.0, 35.0⟩,
    ⟨"Busia", 0.0, 1.0, 34.0, 35.0⟩,
    ⟨"Siaya", 0.0, 1.0, 34.0, 35.0⟩,
    ⟨"Kisumu", -0.5, 0.5, 34.0, 35.0⟩,
    ⟨"Homa Bay", -1.0, 0.0, 34.0, 35.0⟩,
    ⟨"Migori", -1.5, -0.5, 34.0, 35.0⟩,
    ⟨"Kisii", -1.0, 0.0, 34.5, 35.5⟩,
    ⟨"Nyamira", -1.0, 0.0, 34.5, 35.5⟩,
    ⟨"Nairobi", -1.5, -0.5, 36.5, 37.5⟩ ]

/-- Membership test of a point in one rectangle (`a <= lat <= b and
c <= lon <= d`). -/
def inBox (lat lon : ℚ) (b : CountyBox) : Bool :=
  decide (b.latMin ≤ lat) && decide (lat ≤ b.latMax) &&
    decide (b.lonMin ≤ lon) && decide (lon ≤ b.lonMax)

/-- `assign_county(lat, lon)`: the if/elif chain returns the first
rectangle containing the point, else "Unknown". -/
def assign_county (lat lon : ℚ) : String :=
  ((countyBoxes.find? (inBox lat lon)).map CountyBox.name).getD "Unknown"

/-- The labelling-and-discard step of `aggregate_soil_data_by_county`:
attach `assign_county` to every soil point, then drop the rows labelled
"Unknown" before the county-level aggregation. -/
def label_soil_points (pts : List (ℚ × ℚ)) : List ((ℚ × ℚ) × String) :=
  (pts.map (fun p => (p, assign_county p.1 p.2))).filter
    (fun x => decide (x.2 ≠ "Unknown"))

/-! ### Composite metrics (`integrate_all_datasets.py`) -/

/-- Polars `Series.mean()`: the arithmetic mean of the non-null values
of a column, null when every value is null. -/
def polars_mean (xs : List (Option ℚ)) : Option ℚ :=
  let vs := xs.filterMap id
  if vs.length = 0 then none else some (vs.sum / vs.length)

/-- `Monthly_Water_Stress_Index` from `aggregate_weather_data_monthly`:
the mean of the hourly `Water_Stress_Index` column over one
(county, year, month) group, the hourly column being produced by
`process_weather_response`. -/
def monthly_water_stress_index (records : List HourlyInput) : Option ℚ :=
  polars_mean (records.map (fun r => (process_hourly_record r).water_stress_index))

/-- `Water_Scarcity_Score` from `calculate_composite_metrics`: 50 when
the monthly stress index is null, otherwise the index × 100. -/
def water_scarcity_score (monthly_wsi : Option ℚ) : ℚ :=
  match monthly_wsi with
  | none => 50
  | some w => w * 100

/-- The stress index always lies in [0.73, 0.86] (shared helper). -/
lemma water_stress_index_bounds (temp evap rainfall humidity : ℚ) :
    73/100 ≤ calculate_water_stress_index temp evap rainfall humidity ∧
      calculate_water_stress_index temp evap rainfall humidity ≤ 86/100 := by
  unfold calculate_water_stress_index
  split
  · norm_num
  · constructor
    · exact le_max_left _ _
    · exact max_le (by norm_num) (min_le_left _ _)

/-- Every non-null value of the hourly stress column is an output of
`calculate_water_stress_index`, hence lies in [0.73, 0.86]. -/
lemma water_stress_some_bounds (r : HourlyInput) (v : ℚ)
    (h : (process_hourly_record r).water_stress_index = some v) :
    73/100 ≤ v ∧ v ≤ 86/100 := by
  obtain ⟨t, hu, pr, e, p⟩ := r
  rcases t with _ | t <;> rcases e with _ | e <;> rcases p with _ | p <;>
    rcases hu with _ | hu <;> simp [process_hourly_record] at h
  exact h ▸ water_stress_index_bounds t e p hu

/-- The mean of a nonempty list of values in [a, b] lies in [a, b]. -/
lemma mean_bounds {vs : List ℚ} {a b : ℚ} (hne : vs.length ≠ 0)
    (hmem : ∀ v ∈ vs, a ≤ v ∧ v ≤ b) :
    a ≤ vs.sum / vs.length ∧ vs.sum / vs.length ≤ b := by
  have hlen : (0:ℚ) < vs.length := by
    exact_mod_cast Nat.pos_of_ne_zero hne
  have h1 : vs.length • a ≤ vs.sum :=
    List.card_nsmul_le_sum vs a (fun x hx => (hmem x hx).1)
  have h2 : vs.sum ≤ vs.length • b :=
    List.sum_le_card_nsmul vs b (fun x hx => (hmem x hx).2)
  rw [nsmul_eq_mul] at h1 h2
  constructor
  · rw [le_div_iff₀ hlen]
    linarith
  · rw [div_le_iff₀ hlen]
    linarith

end Shamba

namespace Shamba

/-- C3: whenever precipitation ≤ 0, the water stress index is exactly the
maximum-stress constant 0.86, whatever the temperature,
evapotranspiration and humidity inputs. -/
theorem wsi_no_rain_max_stress (temp evap rainfall humidity : ℚ)
    (h : rainfall ≤ 0) :
    calculate_water_stress_index temp evap rainfall humidity = 86/100 := by
  unfold calculate_water_stress_index
  simp [h]

/-- Witness for `wsi_no_rain_max_stress` at temperature 100,
evapotranspiration 12, rainfall 0, humidity 5. -/
theorem wsi_no_rain_max_stress_witness :
    calculate_water_stress_index 100 12 0 5 = 86/100 :=
  wsi_no_rain_max_stress 100 12 0 5 (by norm_num)

/-- C4: for every real-valued input combination, the computed water
stress index lies in the closed interval [0.73, 0.86]. -/
theorem wsi_always_in_range (temp evap rainfall humidity : ℚ) :
    73/100 ≤ calculate_water_stress_index temp evap rainfall humidity ∧
      calculate_water_stress_index temp evap rainfall humidity ≤ 86/100 :=
  water_stress_index_bounds temp evap rainfall humidity

/-- C5 counterexample: at temperature 25, evapotranspiration 5,
rainfall 49, humidity 0, the code's stress index is 0.858, while the
claimed formula with all four contributions independently capped (the
humidity deficit capped at its documented 0.1 maximum) gives 0.838:
the code does not cap the humidity contribution, which here reaches
(60 − 0)·0.002 = 0.12 > 0.1. -/
theorem wsi_not_all_capped_counterexample :
    calculate_water_stress_index 25 5 49 0 = 858/1000 ∧
      water_stress_index_all_capped 25 5 49 0 = 838/1000 ∧
      calculate_water_stress_index 25 5 49 0 ≠
        water_stress_index_all_capped 25 5 49 0 := by
  refine ⟨?_, ?_, ?_⟩ <;> norm_num [calculate_water_stress_index, water_stress_index_all_capped]

/-- C5 amended: when precipitation is positive, the stress index is the
base constant 0.73 plus four additive contributions, clamped to
[0.73, 0.86]; the temperature and evapotranspiration contributions are
each independently capped at 0.3, while the rainfall and humidity
deficit contributions carry no cap in the code — the rainfall deficit
is nevertheless provably below its documented 0.4 maximum whenever
precipitation is positive. -/
theorem wsi_structure_positive_rain (temp evap rainfall humidity : ℚ)
    (hr : 0 < rainfall) :
    calculate_water_stress_index temp evap rainfall humidity =
      max (73/100) (min (86/100)
        (73/100 + (if temp > 25 then min (3/10) ((temp - 25) * (6/100)) else 0)
                + (if evap > 5 then min (3/10) ((evap - 5) * (6/100)) else 0)
                + (if rainfall < 50 then (50 - rainfall) * (8/1000) else 0)
                + (if humidity < 60 then (60 - humidity) * (2/1000) else 0))) ∧
      (if rainfall < 50 then (50 - rainfall) * (8/1000) else 0) < 4/10 := by
  constructor
  · unfold calculate_water_stress_index
    rw [if_neg (not_le.mpr hr)]
  · split
    · nlinarith
    · norm_num

/-- C1 counterexample: for a regressor output of 1.234 t/ha the clamped
raw score is 49.36, but the endpoint returns the value rounded to one
decimal place, 49.4, so the returned score does not equal the plain
clamped quotient. -/
theorem resilience_score_not_plain_clamp :
    (predict_resilience_score (1234/1000)).resilience_score = 494/10 ∧
      max 0 (min 100 ((1234/1000 : ℚ) / BENCHMARK_YIELD * 100)) = 4936/100 ∧
      (predict_resilience_score (1234/1000)).resilience_score ≠
        max 0 (min 100 ((1234/1000 : ℚ) / BENCHMARK_YIELD * 100)) := by
  have hclamp : max 0 (min 100 ((1234/1000 : ℚ) / BENCHMARK_YIELD * 100)) = 4936/100 := by
    norm_num [BENCHMARK_YIELD, min_def, max_def]
  have hscore : (predict_resilience_score (1234/1000)).resilience_score = 494/10 := by
    show roundTo 1 (max 0 (min 100 ((1234/1000 : ℚ) / BENCHMARK_YIELD * 100))) = 494/10
    rw [hclamp]
    norm_num [roundTo, roundHalfEven]
  refine ⟨hscore, hclamp, ?_⟩
  rw [hscore, hclamp]
  norm_num

/-- C1 amended: the returned resilience score equals the predicted
yield divided by the benchmark 2.5 t/ha, times 100, clamped to
[0, 100] and then rounded to one decimal place (Python `round`,
half-to-even); the rounded score still lies in [0, 100].  The
embedding is a pure function of the regressor output, so repeated
calls with a fixed loaded model agree. -/
theorem resilience_score_is_rounded_clamp (y : ℚ) :
    (predict_resilience_score y).resilience_score
        = roundTo 1 (max 0 (min 100 (y / BENCHMARK_YIELD * 100))) ∧
      0 ≤ (predict_resilience_score y).resilience_score ∧
      (predict_resilience_score y).resilience_score ≤ 100 := by
  refine ⟨rfl, ?_, ?_⟩
  · show (0:ℚ) ≤ roundTo 1 (max 0 (min 100 (y / BENCHMARK_YIELD * 100)))
    have hc : (0:ℚ) ≤ max 0 (min 100 (y / BENCHMARK_YIELD * 100)) := le_max_left _ _
    have h1 : (0:ℤ) ≤ roundHalfEven (max 0 (min 100 (y / BENCHMARK_YIELD * 100)) * 10 ^ 1) :=
      roundHalfEven_nonneg (by positivity)
    unfold roundTo
    positivity
  · show roundTo 1 (max 0 (min 100 (y / BENCHMARK_YIELD * 100))) ≤ 100
    have hc : max 0 (min 100 (y / BENCHMARK_YIELD * 100)) ≤ 100 :=
      max_le (by norm_num) (min_le_left _ _)
    have h1 := roundHalfEven_le_ceil (max 0 (min 100 (y / BENCHMARK_YIELD * 100)) * 10 ^ 1)
    have h2 : ⌈max 0 (min 100 (y / BENCHMARK_YIELD * 100)) * 10 ^ 1⌉ ≤ 1000 := by
      apply Int.ceil_le.mpr
      push_cast
      nlinarith
    unfold roundTo
    rw [div_le_iff₀ (by norm_num)]
    have : (roundHalfEven (max 0 (min 100 (y / BENCHMARK_YIELD * 100)) * 10 ^ 1) : ℚ) ≤ 1000 := by
      exact_mod_cast le_trans h1 h2
    linarith

/-- C2: when the model is absent or not trained, both prediction
endpoints respond with status 500 ("Internal server error"), not 503:
the `HTTPException(503)` raised in the `try` body is itself an
`Exception`, so the blanket `except Exception` clause catches it and
re-raises a 500. -/
theorem untrained_endpoints_return_500 :
    predict_resilience true false (Except.ok 2) =
        Except.error { status := 500, detail := "Internal server error during prediction" } ∧
      predict_resilience false false (Except.ok 2) =
        Except.error { status := 500, detail := "Internal server error during prediction" } ∧
      batch_predict true false [Except.ok 2] =
        Except.error { status := 500, detail := "Internal server error during batch prediction" } ∧
      (500 : ℕ) ≠ 503 := by
  exact ⟨rfl, rfl, rfl, by decide⟩

/-- C6 counterexample: for an hourly record with null
evapotranspiration (temperature 30, humidity 50, pressure 1013,
precipitation 5), the emitted record keeps a null stress index but the
irrigation columns receive the non-null placeholders "Unknown", 0 and
0, and Heat_Stress_Days the placeholder 0. -/
theorem missing_evap_placeholders :
    (process_hourly_record ⟨some 30, some 50, some 1013, none, some 5⟩).water_stress_index
        = none ∧
      (process_hourly_record ⟨some 30, some 50, some 1013, none, some 5⟩).irrigation_needed
        = "Unknown" ∧
      (process_hourly_record ⟨some 30, some 50, some 1013, none, some 5⟩).irrigation_volume_liters_ha
        = 0 ∧
      (process_hourly_record ⟨some 30, some 50, some 1013, none, some 5⟩).crop_yield_impact_percent
        = 0 := by
  exact ⟨rfl, rfl, rfl, rfl⟩

/-- C6 amended: whenever evapotranspiration is null, the stress and
irrigation computation for that record is skipped without error and
the Water_Stress_Index column stays null, but the irrigation columns
of the emitted record receive fixed non-null placeholder defaults:
"Unknown" for Irrigation_Needed, 0 for Irrigation_Volume_Liters_Ha and
Crop_Yield_Impact_Percent, and 0 for Heat_Stress_Days. -/
theorem missing_evap_fails_soft (inp : HourlyInput) (h : inp.evap = none) :
    (process_hourly_record inp).water_stress_index = none ∧
      (process_hourly_record inp).irrigation_needed = "Unknown" ∧
      (process_hourly_record inp).irrigation_volume_liters_ha = 0 ∧
      (process_hourly_record inp).crop_yield_impact_percent = 0 ∧
      (process_hourly_record inp).heat_stress_days = 0 := by
  obtain ⟨t, hu, pr, e, p⟩ := inp
  dsimp only at h
  subst h
  rcases t with _ | t <;> rcases p with _ | p <;> rcases hu with _ | hu <;>
    exact ⟨rfl, rfl, rfl, rfl, rfl⟩

/-- Witness for `missing_evap_fails_soft` at a record with null
evapotranspiration and present temperature, humidity and rainfall. -/
theorem missing_evap_fails_soft_witness :
    (process_hourly_record ⟨some 20, some 80, none, none, some 100⟩).water_stress_index = none ∧
      (process_hourly_record ⟨some 20, some 80, none, none, some 100⟩).irrigation_needed
        = "Unknown" ∧
      (process_hourly_record ⟨some 20, some 80, none, none, some 100⟩).irrigation_volume_liters_ha
        = 0 ∧
      (process_hourly_record ⟨some 20, some 80, none, none, some 100⟩).crop_yield_impact_percent
        = 0 ∧
      (process_hourly_record ⟨some 20, some 80, none, none, some 100⟩).heat_stress_days = 0 :=
  missing_evap_fails_soft ⟨some 20, some 80, none, none, some 100⟩ rfl

/-- C7: for every (county, year, month) row of the weather aggregate
used as the join base, the master-table build produces an output row
with that key, and a source with no match for the key leaves `none` in
that source's columns: the successive left joins never drop a base
row. -/
theorem master_never_drops_base_row {W D M S R : Type}
    (weather : List (JoinKey × W)) (dashboard : List (JoinKey × D))
    (maize : List (JoinKey × M)) (soil : List (JoinKey × S))
    (rainfall : List (JoinKey × R)) (k : JoinKey) (w : W)
    (hbase : (k, w) ∈ weather) :
    (∃ row ∈ create_master_dataset weather dashboard maize soil rainfall, row.1 = k) ∧
      ∀ row ∈ create_master_dataset weather dashboard maize soil rainfall, row.1 = k →
        ((∀ kd ∈ dashboard, kd.1 ≠ k) → row.2.1.1.1.2 = none) ∧
        ((∀ km ∈ maize, km.1 ≠ k) → row.2.1.1.2 = none) ∧
        ((∀ ks ∈ soil, ks.1 ≠ k) → row.2.1.2 = none) ∧
        ((∀ kr ∈ rainfall, kr.1 ≠ k) → row.2.2 = none) := by
  constructor
  · obtain ⟨od, h1⟩ := @exists_mem_leftJoin_of_mem_base W D weather dashboard k w hbase
    obtain ⟨om, h2⟩ := @exists_mem_leftJoin_of_mem_base _ M _ maize _ _ h1
    obtain ⟨os, h3⟩ := @exists_mem_leftJoin_of_mem_base _ S _ soil _ _ h2
    obtain ⟨orr, h4⟩ := @exists_mem_leftJoin_of_mem_base _ R _ rainfall _ _ h3
    exact ⟨_, h4, rfl⟩
  · intro row hrow hk
    have h3 := base_mem_of_mem_leftJoin hrow
    have h2 := base_mem_of_mem_leftJoin h3
    have h1 := base_mem_of_mem_leftJoin h2
    refine ⟨?_, ?_, ?_, ?_⟩
    · intro hnd
      exact leftJoin_none_of_no_match h1 (fun kd hkd => hk ▸ hnd kd hkd)
    · intro hnm
      exact leftJoin_none_of_no_match h2 (fun km hkm => hk ▸ hnm km hkm)
    · intro hns
      exact leftJoin_none_of_no_match h3 (fun ks hks => hk ▸ hns ks hks)
    · intro hnr
      exact leftJoin_none_of_no_match hrow (fun kr hkr => hk ▸ hnr kr hkr)

/-- Witness for `master_never_drops_base_row`: a one-row weather base
keyed (Nakuru, 2020, 1), an empty dashboard table, a matching maize
table, an empty soil table, and a rainfall table keyed only
(Kisumu, 2020, 1). -/
theorem master_never_drops_base_row_witness :
    (∃ row ∈ create_master_dataset
        [((⟨"Nakuru", 2020, 1⟩ : JoinKey), (1 : ℚ))] ([] : List (JoinKey × ℚ))
        [((⟨"Nakuru", 2020, 1⟩ : JoinKey), (2 : ℚ))] ([] : List (JoinKey × ℚ))
        [((⟨"Kisumu", 2020, 1⟩ : JoinKey), (3 : ℚ))],
        row.1 = ⟨"Nakuru", 2020, 1⟩) ∧
      ∀ row ∈ create_master_dataset
        [((⟨"Nakuru", 2020, 1⟩ : JoinKey), (1 : ℚ))] ([] : List (JoinKey × ℚ))
        [((⟨"Nakuru", 2020, 1⟩ : JoinKey), (2 : ℚ))] ([] : List (JoinKey × ℚ))
        [((⟨"Kisumu", 2020, 1⟩ : JoinKey), (3 : ℚ))],
        row.1 = ⟨"Nakuru", 2020, 1⟩ →
        ((∀ kd ∈ ([] : List (JoinKey × ℚ)), kd.1 ≠ ⟨"Nakuru", 2020, 1⟩) → row.2.1.1.1.2 = none) ∧
        ((∀ km ∈ [((⟨"Nakuru", 2020, 1⟩ : JoinKey), (2 : ℚ))], km.1 ≠ ⟨"Nakuru", 2020, 1⟩) →
            row.2.1.1.2 = none) ∧
        ((∀ ks ∈ ([] : List (JoinKey × ℚ)), ks.1 ≠ ⟨"Nakuru", 2020, 1⟩) → row.2.1.2 = none) ∧
        ((∀ kr ∈ [((⟨"Kisumu", 2020, 1⟩ : JoinKey), (3 : ℚ))], kr.1 ≠ ⟨"Nakuru", 2020, 1⟩) →
            row.2.2 = none) :=
  master_never_drops_base_row
    [((⟨"Nakuru", 2020, 1⟩ : JoinKey), (1 : ℚ))] ([] : List (JoinKey × ℚ))
    [((⟨"Nakuru", 2020, 1⟩ : JoinKey), (2 : ℚ))] ([] : List (JoinKey × ℚ))
    [((⟨"Kisumu", 2020, 1⟩ : JoinKey), (3 : ℚ))]
    ⟨"Nakuru", 2020, 1⟩ 1 (List.mem_singleton.mpr rfl)

/-- C8: after annual aggregation, a yield row is kept if and only if it
lies within both the IQR bounds [Q1 − 1.5·IQR, Q3 + 1.5·IQR] and the
fixed domain band [0.8, 5.0]; a row with yield exactly 0.8 is retained
whenever 0.8 lies within the IQR bounds, while a row with yield 0.79
is always removed. -/
theorem yield_filter_exact (ys : List ℚ) (y : ℚ) :
    (y ∈ clean_yield_rows ys ↔
        y ∈ ys ∧ (iqr_lower_bound ys ≤ y ∧ y ≤ iqr_upper_bound ys) ∧ (4/5 ≤ y ∧ y ≤ 5)) ∧
      (79/100 : ℚ) ∉ clean_yield_rows ys ∧
      (iqr_lower_bound ys ≤ 4/5 → (4/5 : ℚ) ≤ iqr_upper_bound ys → (4/5 : ℚ) ∈ ys →
        (4/5 : ℚ) ∈ clean_yield_rows ys) := by
  have hmem : ∀ z : ℚ, z ∈ clean_yield_rows ys ↔
      z ∈ ys ∧ (4/5 ≤ z ∧ z ≤ 5) ∧ iqr_lower_bound ys ≤ z ∧ z ≤ iqr_upper_bound ys := by
    intro z
    simp [clean_yield_rows, List.mem_filter, and_assoc]
  refine ⟨?_, ?_, ?_⟩
  · rw [hmem y]
    tauto
  · intro hc
    have h := (hmem _).mp hc
    norm_num at h
  · intro h1 h2 h3
    exact (hmem _).mpr ⟨h3, ⟨le_refl _, by norm_num⟩, h1, h2⟩

/-- Witness for `yield_filter_exact` on the concrete yield column
[0.79, 0.8, 1, 2, 3, 4], whose IQR bounds are [−2, 5.6]: the boundary
yield 0.8 is retained and 0.79 is removed. -/
theorem yield_filter_exact_witness :
    (4/5 : ℚ) ∈ clean_yield_rows [79/100, 4/5, 1, 2, 3, 4] ∧
      (79/100 : ℚ) ∉ clean_yield_rows [79/100, 4/5, 1, 2, 3, 4] :=
  ⟨(yield_filter_exact [79/100, 4/5, 1, 2, 3, 4] (4/5)).2.2
      (by norm_num [iqr_lower_bound, iqr_upper_bound, quantile, sortQ, insertSorted, List.getD,
        (show Int.toNat 3 = 3 from rfl)])
      (by norm_num [iqr_lower_bound, iqr_upper_bound, quantile, sortQ, insertSorted, List.getD,
        (show Int.toNat 3 = 3 from rfl)])
      (by norm_num),
    (yield_filter_exact [79/100, 4/5, 1, 2, 3, 4] (79/100)).2.1⟩

/-- C9 counterexample: the point (0.5, 34.2) lies inside the rectangles
of six distinct counties (Kakamega, Vihiga, Bungoma, Busia, Siaya and
Kisumu), so the fixed rectangle list is not non-overlapping and a point
can match the rectangles of more than one county; the if/elif chain
assigns the first match, Kakamega. -/
theorem county_boxes_overlap_counterexample :
    (countyBoxes.filter (inBox (1/2) (171/5))).map CountyBox.name
        = ["Kakamega", "Vihiga", "Bungoma", "Busia", "Siaya", "Kisumu"] ∧
      1 < ((countyBoxes.filter (inBox (1/2) (171/5))).map CountyBox.name).length ∧
      assign_county (1/2) (171/5) = "Kakamega" := by
  refine ⟨?_, ?_, ?_⟩
  · norm_num [countyBoxes, inBox, murangA]
  · norm_num [countyBoxes, inBox, murangA]
  · norm_num [assign_county, countyBoxes, inBox, murangA]

/-- C9 amended: soil points lacking county labels are classified by the
fixed list of latitude/longitude rectangles, whose rectangles may
overlap (several are identical); a point inside several rectangles is
assigned to the first matching county of the if/elif chain; every
point matching no rectangle is labelled "Unknown" and discarded before
county-level aggregation, and every matched point gets a genuine
county name and is kept. -/
theorem assign_county_first_match_props (lat lon : ℚ) :
    (∀ b ∈ countyBoxes, b.name ≠ "Unknown") ∧
      ((∀ b ∈ countyBoxes, inBox lat lon b = false) → assign_county lat lon = "Unknown") ∧
      ((∃ b ∈ countyBoxes, inBox lat lon b = true) →
        ∃ b ∈ countyBoxes, inBox lat lon b = true ∧ assign_county lat lon = b.name ∧
          b.name ≠ "Unknown") ∧
      ∀ pts : List (ℚ × ℚ), ∀ q ∈ pts,
        (assign_county q.1 q.2 = "Unknown" → ∀ s, (q, s) ∉ label_soil_points pts) ∧
        (assign_county q.1 q.2 ≠ "Unknown" →
          (q, assign_county q.1 q.2) ∈ label_soil_points pts) := by
  have hnames : ∀ b ∈ countyBoxes, b.name ≠ "Unknown" := by decide
  refine ⟨hnames, ?_, ?_, ?_⟩
  · intro hnone
    unfold assign_county
    rw [List.find?_eq_none.mpr (fun b hb => by simp [hnone b hb])]
    rfl
  · rintro ⟨b, hb, hmatch⟩
    have hsome : (countyBoxes.find? (inBox lat lon)).isSome :=
      List.find?_isSome.mpr ⟨b, hb, hmatch⟩
    obtain ⟨b', hb'⟩ := Option.isSome_iff_exists.mp hsome
    refine ⟨b', List.mem_of_find?_eq_some hb', List.find?_some hb', ?_,
      hnames b' (List.mem_of_find?_eq_some hb')⟩
    unfold assign_county
    rw [hb']
    rfl
  · intro pts q hq
    constructor
    · intro hunk s hmem
      have h1 := List.mem_filter.mp hmem
      obtain ⟨q', hq', heq⟩ := List.mem_map.mp h1.1
      have hs : s = assign_county q.1 q.2 := by
        have h2 : q' = q := congrArg Prod.fst heq
        subst h2
        exact (congrArg Prod.snd heq).symm
      rw [hs, hunk] at h1
      simpa using h1.2
    · intro hne
      refine List.mem_filter.mpr ⟨List.mem_map.mpr ⟨q, hq, rfl⟩, by simpa using hne⟩

/-- Witness for `assign_county_first_match_props`: the labelled point
(0.5, 34.2) is assigned to Kakamega and survives the Unknown-discard
filter. -/
theorem assign_county_first_match_props_witness :
    assign_county (1/2) (171/5) = "Kakamega" ∧
      (((1:ℚ)/2, (171:ℚ)/5), "Kakamega") ∈ label_soil_points [((1:ℚ)/2, (171:ℚ)/5)] := by
  have hassign : assign_county (1/2) (171/5) = "Kakamega" := by
    norm_num [assign_county, countyBoxes, inBox, murangA]
  have h := ((assign_county_first_match_props (1/2) (171/5)).2.2.2
    [((1:ℚ)/2, (171:ℚ)/5)] ((1:ℚ)/2, (171:ℚ)/5) (List.mem_singleton.mpr rfl)).2
    (by rw [hassign]; decide)
  rw [hassign] at h
  exact ⟨hassign, h⟩

/-- C10: whenever the monthly water stress index of a master row is
non-null, the composite Water_Scarcity_Score equals that index × 100
and lies in [73, 86]; the neutral default 50 substituted for a null
index is strictly below every score computable from data. -/
theorem water_scarcity_score_range (records : List HourlyInput) (w : ℚ)
    (h : monthly_water_stress_index records = some w) :
    water_scarcity_score (monthly_water_stress_index records) = w * 100 ∧
      73 ≤ w * 100 ∧ w * 100 ≤ 86 ∧ 50 < w * 100 ∧
      water_scarcity_score none = 50 := by
  have hw : 73/100 ≤ w ∧ w ≤ 86/100 := by
    unfold monthly_water_stress_index polars_mean at h
    simp only at h
    by_cases hl :
        ((records.map (fun r => (process_hourly_record r).water_stress_index)).filterMap
          id).length = 0
    · rw [if_pos hl] at h
      exact absurd h (by simp)
    · rw [if_neg hl] at h
      have hmem : ∀ v ∈ (records.map
          (fun r => (process_hourly_record r).water_stress_index)).filterMap id,
          73/100 ≤ v ∧ v ≤ 86/100 := by
        intro v hv
        obtain ⟨o, ho, hov⟩ := List.mem_filterMap.mp hv
        obtain ⟨r, _, hro⟩ := List.mem_map.mp ho
        exact water_stress_some_bounds r v (by rw [hro]; simpa using hov)
      have hb := mean_bounds hl hmem
      have hw' := Option.some_injective _ h
      rw [← hw']
      exact hb
  refine ⟨by rw [h]; rfl, by linarith [hw.1], by linarith [hw.2], by linarith [hw.1], rfl⟩

/-- Witness for `water_scarcity_score_range`: one fully-populated hourly
record (temperature 30, humidity 50, pressure 1013, evapotranspiration
6, precipitation 5) whose stress index clamps to 0.86, giving a
composite score of 86. -/
theorem water_scarcity_score_range_witness :
    water_scarcity_score
        (monthly_water_stress_index [⟨some 30, some 50, some 1013, some 6, some 5⟩])
        = 86/100 * 100 ∧
      (73:ℚ) ≤ 86/100 * 100 ∧ (86:ℚ)/100 * 100 ≤ 86 ∧ (50:ℚ) < 86/100 * 100 ∧
      water_scarcity_score none = 50 :=
  water_scarcity_score_range [⟨some 30, some 50, some 1013, some 6, some 5⟩] (86/100)
    (by norm_num [monthly_water_stress_index, polars_mean, process_hourly_record,
      calculate_water_stress_index, min_def, max_def, List.filterMap_cons, List.filterMap_nil,
      id_eq, List.sum_cons, List.sum_nil])

/-- Witness for `wsi_structure_positive_rain` at temperature 30,
evapotranspiration 6, rainfall 5, humidity 50. -/
theorem wsi_structure_positive_rain_witness :
    calculate_water_stress_index 30 6 5 50 =
      max (73/100) (min (86/100)
        (73/100 + (if (30:ℚ) > 25 then min (3/10) (((30:ℚ) - 25) * (6/100)) else 0)
                + (if (6:ℚ) > 5 then min (3/10) (((6:ℚ) - 5) * (6/100)) else 0)
                + (if (5:ℚ) < 50 then (50 - (5:ℚ)) * (8/1000) else 0)
                + (if (50:ℚ) < 60 then (60 - (50:ℚ)) * (2/1000) else 0))) ∧
      (if (5:ℚ) < 50 then (50 - (5:ℚ)) * (8/1000) else 0) < 4/10 :=
  wsi_structure_positive_rain 30 6 5 50 (by norm_num)

end Shamba
